import Mathlib

/-!
Verification of the KoulesII game engine (`src/src/game/GameEngine.js`,
deadly-wall variant).  The physics and rules code is embedded shallowly:

* JS numbers are modelled as exact rationals (`ℚ`); score, lives, level and
  the extra-life threshold are integers (`ℤ`).
* Where the source computes `Math.sqrt` locally (`checkCollisions`,
  `updatePhysics`, `applyGravity`), the square-root value is passed as an
  explicit parameter; theorems characterise it by `0 ≤ d` and
  `d * d = dx² + dy²`, which pins it to the unique nonnegative root.
* Side effects (`this.emit(...)`, `audioManager.playSound(...)`) are
  modelled as an effect list returned next to the updated state.
* Visual-only fields (sprite, color, the `atan2`-based rotation update)
  and the particle system are omitted: no rule or physics outcome reads
  them.
-/

/-- Object type tags, from `GAME_CONSTANTS` in GameEngine.js. -/
def ROCKET : Nat := 1

/-- `GAME_CONSTANTS.BALL_SMALL`. -/
def BALL_SMALL : Nat := 2

/-- `GAME_CONSTANTS.BALL_LARGE`. -/
def BALL_LARGE : Nat := 3

/-- `GAME_CONSTANTS.HOLE`. -/
def HOLE : Nat := 5

/-- `GAME_CONSTANTS.BBALL`. -/
def BBALL : Nat := 6

/-- `this.GRAVITY_STRENGTH = 1000`. -/
def GRAVITY_STRENGTH : ℚ := 1000

/-- `this.MIN_GRAVITY_DISTANCE = 30`. -/
def MIN_GRAVITY_DISTANCE : ℚ := 30

/-- `this.MAX_GRAVITY_DISTANCE = 150`. -/
def MAX_GRAVITY_DISTANCE : ℚ := 150

/-- One simulated object, as built by `createGameObject`. -/
structure GameObject where
  type : Nat
  x : ℚ
  y : ℚ
  vx : ℚ
  vy : ℚ
  fx : ℚ
  fy : ℚ
  radius : ℚ
  mass : ℚ
  live : Bool
  playerId : ℤ
  deriving DecidableEq

/-- The scalar game state touched by scoring (`this.score`, `this.lives`,
`this.nextLifeAt`, `this.level`). -/
structure ScoreState where
  score : ℤ
  lives : ℤ
  nextLifeAt : ℤ
  level : ℤ
  deriving DecidableEq

/-- The engine phase (`this.gameState`: "stopped" / "running" / "paused"). -/
inductive GState where
  | stopped
  | running
  | paused
  deriving DecidableEq

/-- Sound cue names passed to `audioManager.playSound`. -/
inductive SoundName where
  | collision
  | ballInHole
  | rocketDeath
  | objectDeath
  | levelComplete
  deriving DecidableEq

/-- Observable effects: `this.emit(...)` events and sound cues, in program
order. -/
inductive Eff where
  | scoreUpdate (score level lives : ℤ)
  | extraLife (score level lives nextLifeAt : ℤ)
  | levelComplete (level score : ℤ)
  | gameOver (score level : ℤ)
  | sound (s : SoundName)
  deriving DecidableEq

/-- `checkExtraLife()`: if `score >= nextLifeAt` then increment lives,
move the threshold up by 500, play the happy sound and emit `extraLife`;
in all cases emit `scoreUpdate` afterwards. -/
def checkExtraLife (st : ScoreState) : ScoreState × List Eff :=
  if st.nextLifeAt ≤ st.score then
    let st2 : ScoreState :=
      { st with lives := st.lives + 1, nextLifeAt := st.nextLifeAt + 500 }
    (st2, [Eff.sound SoundName.levelComplete,
           Eff.extraLife st2.score st2.level st2.lives st2.nextLifeAt,
           Eff.scoreUpdate st2.score st2.level st2.lives])
  else
    (st, [Eff.scoreUpdate st.score st.level st.lives])

/-- Recogniser for `extraLife` events. -/
def isExtraLifeEff : Eff → Bool
  | Eff.extraLife _ _ _ _ => true
  | _ => false

/-- Number of `extraLife` notifications in an effect list. -/
def countExtra (l : List Eff) : Nat := (l.filter isExtraLifeEff).length

/-- One scoring event inside a tick: `this.score += d` immediately followed
by `this.checkExtraLife()`, the pattern used at every scoring site of
GameEngine.js. -/
def addScore (st : ScoreState) (d : ℤ) : ScoreState × List Eff :=
  checkExtraLife { st with score := st.score + d }

/-- The sequence of scoring events of one tick, each scored as in the
source (increment, then `checkExtraLife`), with effects accumulated in
order. -/
def runScoring : ScoreState → List ℤ → ScoreState × List Eff
  | st, [] => (st, [])
  | st, d :: ds =>
    let r := addScore st d
    let rest := runScoring r.1 ds
    (rest.1, r.2 ++ rest.2)

/-- The per-hole force contribution of `applyGravity`: given the distance
`d` (computed as `Math.sqrt(dx*dx + dy*dy)` in the source and passed here
explicitly), holes strictly inside the band
`(MIN_GRAVITY_DISTANCE, MAX_GRAVITY_DISTANCE)` contribute
`GRAVITY_STRENGTH / d²` along the normalised direction to the hole;
everything else contributes nothing. -/
def gravityFromHole (obj hole : GameObject) (d : ℚ) : ℚ × ℚ :=
  let dx := hole.x - obj.x
  let dy := hole.y - obj.y
  if d < MAX_GRAVITY_DISTANCE ∧ MIN_GRAVITY_DISTANCE < d then
    let gravityForce := GRAVITY_STRENGTH / (d * d)
    (gravityForce * (dx / d), gravityForce * (dy / d))
  else
    (0, 0)

/-- `applyGravity(obj)`: holes receive no gravity; every live `HOLE` in the
object list adds its `gravityFromHole` contribution to the accumulated
force.  The candidate list carries each candidate's centre distance to
`obj` (the source computes it with `Math.sqrt` inside the loop). -/
def applyGravity (obj : GameObject) (holes : List (GameObject × ℚ)) :
    GameObject :=
  if obj.type = HOLE then obj
  else
    holes.foldl
      (fun o hd =>
        if hd.1.live && hd.1.type == HOLE then
          let c := gravityFromHole o hd.1 hd.2
          { o with fx := o.fx + c.1, fy := o.fy + c.2 }
        else o)
      obj

/-- The kinematic part of `updatePhysics()` for one object: gravity, force
integration (`a = F/m`, `v += a·Δt`), per-kind friction, the per-kind
velocity cap, and the position update `p += v`.  `vel` is the value of
`Math.sqrt(vx*vx + vy*vy)` taken after friction, passed explicitly.  The
`atan2` rotation update (visual-only) and the trailing `keepInBounds` call
(modelled separately, it needs the score state) are not included here. -/
def updatePhysicsObj (dt : ℚ) (holes : List (GameObject × ℚ)) (vel : ℚ)
    (obj : GameObject) : GameObject :=
  if obj.live then
    let o1 := applyGravity obj holes
    let ax := o1.fx / o1.mass
    let ay := o1.fy / o1.mass
    let o2 := { o1 with vx := o1.vx + ax * dt, vy := o1.vy + ay * dt }
    let friction : ℚ := if o2.type = ROCKET then 98/100 else 995/1000
    let o3 := { o2 with vx := o2.vx * friction, vy := o2.vy * friction }
    let maxVel : ℚ := if o3.type = ROCKET then 8 else 6
    let o4 :=
      if maxVel < vel then
        { o3 with vx := o3.vx / vel * maxVel, vy := o3.vy / vel * maxVel }
      else o3
    { o4 with x := o4.x + o4.vx, y := o4.y + o4.vy }
  else obj

/-- `keepInBounds(obj)` of the deadly-wall engine: any object closer than
one radius to a screen edge is handled; holes are skipped, every other
object is killed, balls additionally score (5 small / 10 large, each
followed by `checkExtraLife`), and a death sound is played (`rocketDeath`
for rockets, `objectDeath` otherwise). -/
def keepInBounds (w h : ℚ) (obj : GameObject) (st : ScoreState) :
    GameObject × ScoreState × List Eff :=
  let margin := obj.radius
  if obj.x < margin ∨ w - margin < obj.x ∨ obj.y < margin ∨
      h - margin < obj.y then
    if obj.type = HOLE then (obj, st, [])
    else
      let obj2 := { obj with live := false }
      let scored :=
        if obj.type = BALL_SMALL then
          checkExtraLife { st with score := st.score + 5 }
        else if obj.type = BALL_LARGE then
          checkExtraLife { st with score := st.score + 10 }
        else (st, [])
      let snd :=
        if obj.type = ROCKET then SoundName.rocketDeath
        else SoundName.objectDeath
      (obj2, scored.1, scored.2 ++ [Eff.sound snd])
  else (obj, st, [])

/-- `handleSpecialCollisions(obj1, obj2)`: ball–hole kills the ball and
scores (10 small / 20 large, then `checkExtraLife`, then the `ballInHole`
sound); rocket–hole kills the rocket with the `rocketDeath` sound; the
rocket-damage case is an explicit no-op. -/
def handleSpecialCollisions (obj1 obj2 : GameObject) (st : ScoreState) :
    GameObject × GameObject × ScoreState × List Eff :=
  if ((obj1.type = BALL_SMALL ∨ obj1.type = BALL_LARGE) ∧
        obj2.type = HOLE) ∨
     ((obj2.type = BALL_SMALL ∨ obj2.type = BALL_LARGE) ∧
        obj1.type = HOLE) then
    if obj1.type = BALL_SMALL ∨ obj1.type = BALL_LARGE then
      let st2 :=
        if obj1.type = BALL_SMALL then { st with score := st.score + 10 }
        else if obj1.type = BALL_LARGE then { st with score := st.score + 20 }
        else st
      let r := checkExtraLife st2
      ({ obj1 with live := false }, obj2, r.1,
        r.2 ++ [Eff.sound SoundName.ballInHole])
    else
      let st2 :=
        if obj2.type = BALL_SMALL then { st with score := st.score + 10 }
        else if obj2.type = BALL_LARGE then { st with score := st.score + 20 }
        else st
      let r := checkExtraLife st2
      (obj1, { obj2 with live := false }, r.1,
        r.2 ++ [Eff.sound SoundName.ballInHole])
  else if (obj1.type = ROCKET ∧ obj2.type = HOLE) ∨
      (obj2.type = ROCKET ∧ obj1.type = HOLE) then
    if obj1.type = ROCKET then
      ({ obj1 with live := false }, obj2, st,
        [Eff.sound SoundName.rocketDeath])
    else
      (obj1, { obj2 with live := false }, st,
        [Eff.sound SoundName.rocketDeath])
  else
    (obj1, obj2, st, [])

/-- `handleCollision(obj1, obj2, dx, dy, distance)`: normalise the
collision vector, separate the two circles half-and-half, and, unless the
pair is already separating along the normal (`dvn > 0`, an early return),
apply the elastic impulse, dispatch the kind-specific outcomes and play the
`collision` sound. -/
def handleCollision (obj1 obj2 : GameObject) (dx dy distance : ℚ)
    (st : ScoreState) : GameObject × GameObject × ScoreState × List Eff :=
  let nx := dx / distance
  let ny := dy / distance
  let overlap := (obj1.radius + obj2.radius - distance) / 2
  let o1 := { obj1 with x := obj1.x - nx * overlap,
                        y := obj1.y - ny * overlap }
  let o2 := { obj2 with x := obj2.x + nx * overlap,
                        y := obj2.y + ny * overlap }
  let dvx := o2.vx - o1.vx
  let dvy := o2.vy - o1.vy
  let dvn := dvx * nx + dvy * ny
  if 0 < dvn then (o1, o2, st, [])
  else
    let impulse := (2 * dvn) / (o1.mass + o2.mass)
    let o1b := { o1 with vx := o1.vx + impulse * o2.mass * nx,
                         vy := o1.vy + impulse * o2.mass * ny }
    let o2b := { o2 with vx := o2.vx - impulse * o1.mass * nx,
                         vy := o2.vy - impulse * o1.mass * ny }
    let r := handleSpecialCollisions o1b o2b st
    (r.1, r.2.1, r.2.2.1, r.2.2.2 ++ [Eff.sound SoundName.collision])

/-- The body of the `checkCollisions()` pair loop for one unordered pair:
skip pairs with a dead member, test `distance < radius₁ + radius₂`
(`distance` is `Math.sqrt(dx*dx + dy*dy)` in the source, passed here
explicitly) and hand colliding pairs to `handleCollision`. -/
def collidePair (obj1 obj2 : GameObject) (distance : ℚ) (st : ScoreState) :
    GameObject × GameObject × ScoreState × List Eff :=
  if obj1.live && obj2.live then
    let dx := obj2.x - obj1.x
    let dy := obj2.y - obj1.y
    if distance < obj1.radius + obj2.radius then
      handleCollision obj1 obj2 dx dy distance st
    else (obj1, obj2, st, [])
  else (obj1, obj2, st, [])

/-- Result of the end-of-tick rules check: updated scalars, phase, emitted
events, and whether `restartLevel()` was invoked (its random respawn is
not modelled beyond the flag and the phase it sets). -/
structure RulesResult where
  st : ScoreState
  gs : GState
  events : List Eff
  restarted : Bool
  deriving DecidableEq

/-- `checkGameState()`: if no live small/large ball remains, emit
`levelComplete{level, score}`; if no live rocket remains, decrement lives
and either emit `gameOver{score, level}` (when lives dropped to ≤ 0) or
call `restartLevel()` (which re-initialises the same level and sets the
phase to running). -/
def checkGameState (objects rockets : List GameObject) (st : ScoreState)
    (gs : GState) : RulesResult :=
  let aliveBalls := objects.filter
    (fun o => o.live && (o.type == BALL_SMALL || o.type == BALL_LARGE))
  let ballEvents :=
    if aliveBalls.length = 0 then [Eff.levelComplete st.level st.score]
    else []
  let aliveRockets := rockets.filter (fun r => r.live)
  if aliveRockets.length = 0 then
    let st2 := { st with lives := st.lives - 1 }
    if st2.lives ≤ 0 then
      { st := st2, gs := gs,
        events := ballEvents ++ [Eff.gameOver st2.score st2.level],
        restarted := false }
    else
      { st := st2, gs := GState.running, events := ballEvents,
        restarted := true }
  else
    { st := st, gs := gs, events := ballEvents, restarted := false }

/-- Classification of the reachable scoring states of one tick that starts
below the threshold `T0` and never reaches `T0 + 500`: either no life has
been granted yet, or exactly one has. -/
def ExtraInv (T0 L0 : ℤ) (st : ScoreState) (n : Nat) : Prop :=
  (st.nextLifeAt = T0 ∧ st.lives = L0 ∧ n = 0 ∧ st.score < T0) ∨
  (st.nextLifeAt = T0 + 500 ∧ st.lives = L0 + 1 ∧ n = 1 ∧ T0 ≤ st.score)

/-- A score state with the freshly started game's scalars
(`score = 0`, `lives = 3`, `nextLifeAt = 500`, `level = 1`). -/
def stStart : ScoreState := { score := 0, lives := 3, nextLifeAt := 500, level := 1 }

/-- The score state just before the spec's example crossing: 495 points,
threshold 500. -/
def stBefore : ScoreState := { score := 495, lives := 3, nextLifeAt := 500, level := 1 }

/-- A score state that has jumped two thresholds past `nextLifeAt` in one
go (1505 ≥ 500 + 2·500). -/
def stJump : ScoreState := { score := 1505, lives := 3, nextLifeAt := 500, level := 1 }

/-- Scalars for the life-lost scenario: one life left, score 42, level 3. -/
def stC5 : ScoreState := { score := 42, lives := 1, nextLifeAt := 500, level := 3 }

/-- Scalars for the level-complete scenario: score 100, level 2. -/
def stC6 : ScoreState := { score := 100, lives := 3, nextLifeAt := 500, level := 2 }

/-- A rocket (`createGameObject` with `ROCKET`: radius 14, mass 4) sitting
at (100, 100) and moving away from the hole to its right. -/
def rocketSep : GameObject :=
  { type := ROCKET, x := 100, y := 100, vx := -5, vy := 0, fx := 0, fy := 0,
    radius := 14, mass := 4, live := true, playerId := 0 }

/-- The same rocket moving toward the hole to its right. -/
def rocketApp : GameObject :=
  { type := ROCKET, x := 100, y := 100, vx := 5, vy := 0, fx := 0, fy := 0,
    radius := 14, mass := 4, live := true, playerId := 0 }

/-- A stationary hole (`HOLE`: radius 12, default mass 1) at (110, 100),
overlapping both rockets above (centre distance 10 < 14 + 12). -/
def holeNear : GameObject :=
  { type := HOLE, x := 110, y := 100, vx := 0, vy := 0, fx := 0, fy := 0,
    radius := 12, mass := 1, live := true, playerId := -1 }

/-- A rocket with velocity (10, 0) and no accumulated force, used to probe
the velocity cap of `updatePhysics`. -/
def rocketFast : GameObject :=
  { type := ROCKET, x := 100, y := 100, vx := 10, vy := 0, fx := 0, fy := 0,
    radius := 14, mass := 4, live := true, playerId := 0 }

/-- A small ball at (100, 100). -/
def ballAt100 : GameObject :=
  { type := BALL_SMALL, x := 100, y := 100, vx := 0, vy := 0, fx := 0,
    fy := 0, radius := 8, mass := 3, live := true, playerId := -1 }

/-- A hole exactly coincident with `ballAt100` (zero centre distance). -/
def holeAt100 : GameObject :=
  { type := HOLE, x := 100, y := 100, vx := 0, vy := 0, fx := 0, fy := 0,
    radius := 12, mass := 1, live := true, playerId := -1 }

/-- A small ball near the left edge: centre x = 2 with radius 8. -/
def ballAtEdge : GameObject :=
  { type := BALL_SMALL, x := 2, y := 300, vx := -1, vy := 0, fx := 0,
    fy := 0, radius := 8, mass := 3, live := true, playerId := -1 }

/-- A dead rocket (used to trigger the life-lost branch). -/
def rocketDead : GameObject :=
  { type := ROCKET, x := 100, y := 100, vx := 0, vy := 0, fx := 0, fy := 0,
    radius := 14, mass := 4, live := false, playerId := 0 }

/-- A live rocket at rest (a non-ball survivor for the rules check). -/
def rocketIdle : GameObject :=
  { type := ROCKET, x := 400, y := 300, vx := 0, vy := 0, fx := 0, fy := 0,
    radius := 14, mass := 4, live := true, playerId := 0 }

/-- The object `gravityFromHole` is probed at: the origin. -/
def objAtOrigin : GameObject :=
  { type := BALL_SMALL, x := 0, y := 0, vx := 0, vy := 0, fx := 0, fy := 0,
    radius := 8, mass := 3, live := true, playerId := -1 }

/-- A hole at (30, 40): centre distance 50 from `objAtOrigin`, inside the
gravity band (30, 150). -/
def holeAt3040 : GameObject :=
  { type := HOLE, x := 30, y := 40, vx := 0, vy := 0, fx := 0, fy := 0,
    radius := 12, mass := 1, live := true, playerId := -1 }

lemma checkExtraLife_score (st : ScoreState) :
    (checkExtraLife st).1.score = st.score := by
  unfold checkExtraLife
  split <;> rfl

lemma checkExtraLife_level (st : ScoreState) :
    (checkExtraLife st).1.level = st.level := by
  unfold checkExtraLife
  split <;> rfl

lemma addScore_score (st : ScoreState) (d : ℤ) :
    (addScore st d).1.score = st.score + d := by
  unfold addScore
  rw [checkExtraLife_score]

lemma runScoring_score (ds : List ℤ) (st : ScoreState) :
    (runScoring st ds).1.score = st.score + ds.sum := by
  induction ds generalizing st with
  | nil => simp [runScoring]
  | cons d ds ih =>
      simp only [runScoring, List.sum_cons]
      rw [ih, addScore_score]
      ring

lemma addScore_inv (T0 L0 : ℤ) (st : ScoreState) (n : Nat) (d : ℤ)
    (hd : 0 ≤ d) (hbound : st.score + d < T0 + 500)
    (hinv : ExtraInv T0 L0 st n) :
    ExtraInv T0 L0 (addScore st d).1 (n + countExtra (addScore st d).2) := by
  rcases hinv with ⟨hT, hL, hn, hs⟩ | ⟨hT, hL, hn, hs⟩
  · by_cases hge : T0 ≤ st.score + d
    · right
      simp [addScore, checkExtraLife, hT, hL, hn, hge, countExtra,
        isExtraLifeEff, List.filter]
    · left
      simp [addScore, checkExtraLife, hT, hL, hn, hge, countExtra,
        isExtraLifeEff, List.filter]
      omega
  · right
    have hlt : ¬ T0 + 500 ≤ st.score + d := by omega
    simp [addScore, checkExtraLife, hT, hL, hn, hlt, countExtra,
      isExtraLifeEff, List.filter]
    omega

lemma runScoring_inv (T0 L0 : ℤ) (ds : List ℤ) (st : ScoreState) (n : Nat)
    (hpos : ∀ d ∈ ds, 0 ≤ d)
    (hbound : st.score + ds.sum < T0 + 500)
    (hinv : ExtraInv T0 L0 st n) :
    ExtraInv T0 L0 (runScoring st ds).1
      (n + countExtra (runScoring st ds).2) := by
  induction ds generalizing st n with
  | nil => simpa [runScoring, countExtra] using hinv
  | cons d ds ih =>
      have hd : 0 ≤ d := hpos d (List.mem_cons_self d ds)
      have hsum : 0 ≤ ds.sum :=
        List.sum_nonneg (fun x hx => hpos x (List.mem_cons_of_mem d hx))
      have hstep : st.score + d < T0 + 500 := by
        have := hbound
        simp only [List.sum_cons] at this
        omega
      have h1 := addScore_inv T0 L0 st n d hd hstep hinv
      have h2 := ih (addScore st d).1 (n + countExtra (addScore st d).2)
        (fun x hx => hpos x (List.mem_cons_of_mem d hx))
        (by
          rw [addScore_score]
          have := hbound
          simp only [List.sum_cons] at this
          omega)
        h1
      simp only [runScoring]
      have hcount : countExtra ((addScore st d).2 ++
          (runScoring (addScore st d).1 ds).2) =
          countExtra (addScore st d).2 +
          countExtra (runScoring (addScore st d).1 ds).2 := by
        simp [countExtra, List.filter_append]
      rw [hcount, ← Nat.add_assoc]
      exact h2

lemma hsc_fst_x (a b : GameObject) (st : ScoreState) :
    (handleSpecialCollisions a b st).1.x = a.x := by
  simp only [handleSpecialCollisions]
  split_ifs <;> rfl

lemma hsc_fst_y (a b : GameObject) (st : ScoreState) :
    (handleSpecialCollisions a b st).1.y = a.y := by
  simp only [handleSpecialCollisions]
  split_ifs <;> rfl

lemma hsc_fst_vx (a b : GameObject) (st : ScoreState) :
    (handleSpecialCollisions a b st).1.vx = a.vx := by
  simp only [handleSpecialCollisions]
  split_ifs <;> rfl

lemma hsc_fst_vy (a b : GameObject) (st : ScoreState) :
    (handleSpecialCollisions a b st).1.vy = a.vy := by
  simp only [handleSpecialCollisions]
  split_ifs <;> rfl

lemma hsc_fst_mass (a b : GameObject) (st : ScoreState) :
    (handleSpecialCollisions a b st).1.mass = a.mass := by
  simp only [handleSpecialCollisions]
  split_ifs <;> rfl

lemma hsc_snd_x (a b : GameObject) (st : ScoreState) :
    (handleSpecialCollisions a b st).2.1.x = b.x := by
  simp only [handleSpecialCollisions]
  split_ifs <;> rfl

lemma hsc_snd_y (a b : GameObject) (st : ScoreState) :
    (handleSpecialCollisions a b st).2.1.y = b.y := by
  simp only [handleSpecialCollisions]
  split_ifs <;> rfl

lemma hsc_snd_vx (a b : GameObject) (st : ScoreState) :
    (handleSpecialCollisions a b st).2.1.vx = b.vx := by
  simp only [handleSpecialCollisions]
  split_ifs <;> rfl

lemma hsc_snd_vy (a b : GameObject) (st : ScoreState) :
    (handleSpecialCollisions a b st).2.1.vy = b.vy := by
  simp only [handleSpecialCollisions]
  split_ifs <;> rfl

lemma hsc_snd_mass (a b : GameObject) (st : ScoreState) :
    (handleSpecialCollisions a b st).2.1.mass = b.mass := by
  simp only [handleSpecialCollisions]
  split_ifs <;> rfl

/-- C9: the generic elastic impulse of `handleCollision` conserves total
momentum: with exact arithmetic, for every pair of objects and every
collision vector, `m₁·v₁ + m₂·v₂` (componentwise) is the same before and
after the call — both in the early-return (separating) branch, where
velocities are untouched, and in the impulse branch, where the symmetric
impulse cancels. -/
theorem handleCollision_momentum_conserved (obj1 obj2 : GameObject)
    (dx dy d : ℚ) (st : ScoreState) :
    (handleCollision obj1 obj2 dx dy d st).1.mass *
        (handleCollision obj1 obj2 dx dy d st).1.vx +
      (handleCollision obj1 obj2 dx dy d st).2.1.mass *
        (handleCollision obj1 obj2 dx dy d st).2.1.vx =
      obj1.mass * obj1.vx + obj2.mass * obj2.vx ∧
    (handleCollision obj1 obj2 dx dy d st).1.mass *
        (handleCollision obj1 obj2 dx dy d st).1.vy +
      (handleCollision obj1 obj2 dx dy d st).2.1.mass *
        (handleCollision obj1 obj2 dx dy d st).2.1.vy =
      obj1.mass * obj1.vy + obj2.mass * obj2.vy := by
  constructor <;>
  · simp only [handleCollision]
    split
    · rfl
    · simp only [hsc_fst_mass, hsc_fst_vx, hsc_fst_vy, hsc_snd_mass,
        hsc_snd_vx, hsc_snd_vy]
      ring

/-- C1 (counterexample): an overlapping rocket–hole pair (centre distance
10 < 14 + 12 = sum of radii) whose relative velocity is separating along
the collision normal (`dvn = 5 > 0`).  `handleCollision` returns before
`handleSpecialCollisions`, so the rocket stays alive and no `rocketDeath`
sound fires — contradicting "lethal regardless of relative velocity". -/
theorem handleCollision_separating_rocket_survives :
    rocketSep.live = true ∧ holeNear.live = true ∧
    (10 : ℚ) < rocketSep.radius + holeNear.radius ∧
    (10 : ℚ) * 10 =
      (holeNear.x - rocketSep.x) * (holeNear.x - rocketSep.x) +
      (holeNear.y - rocketSep.y) * (holeNear.y - rocketSep.y) ∧
    (0 : ℚ) <
      (holeNear.vx - rocketSep.vx) * ((10 : ℚ) / 10) +
      (holeNear.vy - rocketSep.vy) * ((0 : ℚ) / 10) ∧
    (collidePair rocketSep holeNear 10 stStart).1.live = true ∧
    Eff.sound SoundName.rocketDeath ∉
      (collidePair rocketSep holeNear 10 stStart).2.2.2 := by
  refine ⟨rfl, rfl, by norm_num [rocketSep, holeNear],
    by norm_num [rocketSep, holeNear], by norm_num [rocketSep, holeNear],
    ?_, ?_⟩ <;>
    norm_num [collidePair, handleCollision, rocketSep, holeNear, stStart]

/-- C1 (amended): a rocket–hole collision kills the rocket and fires the
`rocketDeath` sound whenever the pair is NOT separating along the
collision normal (`dvn ≤ 0`); the separating case returns early and skips
the death. -/
theorem handleCollision_rocket_hole_death (obj1 obj2 : GameObject)
    (dx dy d : ℚ) (st : ScoreState)
    (htypes : (obj1.type = ROCKET ∧ obj2.type = HOLE) ∨
      (obj1.type = HOLE ∧ obj2.type = ROCKET))
    (hdvn : (obj2.vx - obj1.vx) * (dx / d) +
      (obj2.vy - obj1.vy) * (dy / d) ≤ 0) :
    ((obj1.type = ROCKET →
        (handleCollision obj1 obj2 dx dy d st).1.live = false) ∧
     (obj2.type = ROCKET →
        (handleCollision obj1 obj2 dx dy d st).2.1.live = false)) ∧
    Eff.sound SoundName.rocketDeath ∈
      (handleCollision obj1 obj2 dx dy d st).2.2.2 := by
  have hnot : ¬ (0 : ℚ) < (obj2.vx - obj1.vx) * (dx / d) +
      (obj2.vy - obj1.vy) * (dy / d) := not_lt.mpr hdvn
  rcases htypes with ⟨h1, h2⟩ | ⟨h1, h2⟩ <;>
    simp [handleCollision, handleSpecialCollisions, h1, h2, ROCKET, HOLE,
      BALL_SMALL, BALL_LARGE, hnot]

/-- C1 (witness): a rocket moving toward the overlapping hole (`dvn =
-5 ≤ 0`) is killed and the `rocketDeath` sound fires. -/
theorem handleCollision_rocket_hole_death_witness :
    ((rocketApp.type = ROCKET ∧ holeNear.type = HOLE) ∨
      (rocketApp.type = HOLE ∧ holeNear.type = ROCKET)) ∧
    ((holeNear.vx - rocketApp.vx) * ((10 : ℚ) / 10) +
      (holeNear.vy - rocketApp.vy) * ((0 : ℚ) / 10) ≤ 0) ∧
    (handleCollision rocketApp holeNear 10 0 10 stStart).1.live = false ∧
    Eff.sound SoundName.rocketDeath ∈
      (handleCollision rocketApp holeNear 10 0 10 stStart).2.2.2 := by
  have h := handleCollision_rocket_hole_death rocketApp holeNear 10 0 10
    stStart (Or.inl ⟨rfl, rfl⟩) (by norm_num [rocketApp, holeNear])
  exact ⟨Or.inl ⟨rfl, rfl⟩, by norm_num [rocketApp, holeNear],
    h.1.1 rfl, h.2⟩

/-- C2: the deadly-wall engine still clamps speed to the per-kind cap.  A
live rocket with velocity (10, 0) and no forces reaches speed 9.8 = 49/5
after friction (the certifying first conjuncts), which exceeds the rocket
cap 8, and `updatePhysics` rescales the velocity to exactly 8 and adds the
clamped — not the unmodified — velocity to the position.  This contradicts
the CHANGELOG's "Removed velocity cap". -/
theorem updatePhysics_deadly_caps_velocity :
    rocketFast.live = true ∧ rocketFast.type = ROCKET ∧
    (49 / 5 : ℚ) * (49 / 5) =
      (rocketFast.vx * (98 / 100)) * (rocketFast.vx * (98 / 100)) +
      (rocketFast.vy * (98 / 100)) * (rocketFast.vy * (98 / 100)) ∧
    (0 : ℚ) ≤ 49 / 5 ∧ (8 : ℚ) < 49 / 5 ∧
    (updatePhysicsObj 1 [] (49 / 5) rocketFast).vx = 8 ∧
    (updatePhysicsObj 1 [] (49 / 5) rocketFast).vy = 0 ∧
    (updatePhysicsObj 1 [] (49 / 5) rocketFast).x = rocketFast.x + 8 := by
  refine ⟨rfl, rfl, by norm_num [rocketFast], by norm_num, by norm_num,
    ?_, ?_, ?_⟩ <;>
    norm_num [updatePhysicsObj, applyGravity, rocketFast, ROCKET]

/-- C3: in a tick whose scoring events (each `score += d` followed by
`checkExtraLife`, `d ≥ 0`) start below the threshold and end at or above
it but below threshold + 500 — i.e. the score crosses `nextLifeAt` exactly
once — exactly one extra life is granted, the threshold advances by
exactly 500, and exactly one `extraLife` notification is emitted. -/
theorem extraLife_single_crossing (st : ScoreState) (ds : List ℤ)
    (hpos : ∀ d ∈ ds, 0 ≤ d)
    (hstart : st.score < st.nextLifeAt)
    (hcross : st.nextLifeAt ≤ (runScoring st ds).1.score)
    (hbound : (runScoring st ds).1.score < st.nextLifeAt + 500) :
    (runScoring st ds).1.lives = st.lives + 1 ∧
    (runScoring st ds).1.nextLifeAt = st.nextLifeAt + 500 ∧
    countExtra (runScoring st ds).2 = 1 := by
  have hsum : (runScoring st ds).1.score = st.score + ds.sum :=
    runScoring_score ds st
  have hinv0 : ExtraInv st.nextLifeAt st.lives st 0 :=
    Or.inl ⟨rfl, rfl, rfl, hstart⟩
  have hb : st.score + ds.sum < st.nextLifeAt + 500 := by
    rw [← hsum]; exact hbound
  have h := runScoring_inv st.nextLifeAt st.lives ds st 0 hpos hb hinv0
  rcases h with ⟨hT, hL, hn, hs⟩ | ⟨hT, hL, hn, hs⟩
  · omega
  · exact ⟨hL, hT, by omega⟩

/-- C3 (witness): the spec's example — score 495, threshold 500, one
scoring event of +20 (large ball in hole) ends the tick at 515: one life,
threshold 1000, one `extraLife` notification. -/
theorem extraLife_single_crossing_witness :
    (∀ d ∈ [(20 : ℤ)], 0 ≤ d) ∧
    stBefore.score < stBefore.nextLifeAt ∧
    stBefore.nextLifeAt ≤ (runScoring stBefore [20]).1.score ∧
    (runScoring stBefore [20]).1.score < stBefore.nextLifeAt + 500 ∧
    (runScoring stBefore [20]).1.lives = stBefore.lives + 1 ∧
    (runScoring stBefore [20]).1.nextLifeAt = stBefore.nextLifeAt + 500 ∧
    countExtra (runScoring stBefore [20]).2 = 1 := by
  have h := extraLife_single_crossing stBefore [20] (by decide) (by decide)
    (by decide) (by decide)
  exact ⟨by decide, by decide, by decide, by decide, h.1, h.2.1, h.2.2⟩

/-- C10: a single `checkExtraLife` invocation grants exactly one life and
advances the threshold by exactly 500, even when the score exceeds the
current threshold by more than 500 (a jump past two thresholds). -/
theorem checkExtraLife_grants_at_most_one (st : ScoreState)
    (hover : st.nextLifeAt + 500 < st.score) :
    (checkExtraLife st).1.lives = st.lives + 1 ∧
    (checkExtraLife st).1.nextLifeAt = st.nextLifeAt + 500 ∧
    countExtra (checkExtraLife st).2 = 1 := by
  have h : st.nextLifeAt ≤ st.score := by omega
  simp [checkExtraLife, h, countExtra, isExtraLifeEff, List.filter]

/-- C10 (witness): a score of 1505 against threshold 500 (two thresholds
jumped at once) still grants exactly one life and moves the threshold to
exactly 1000. -/
theorem checkExtraLife_grants_at_most_one_witness :
    stJump.nextLifeAt + 500 < stJump.score ∧
    (checkExtraLife stJump).1.lives = stJump.lives + 1 ∧
    (checkExtraLife stJump).1.nextLifeAt = stJump.nextLifeAt + 500 ∧
    countExtra (checkExtraLife stJump).2 = 1 := by
  exact ⟨by decide, checkExtraLife_grants_at_most_one stJump (by decide)⟩

/-- C4: for a hole at centre distance `d` (certified as the nonnegative
square root of `dx² + dy²`): (i) `applyGravity` adds exactly the
`gravityFromHole` contribution for a live hole acting on a non-hole;
(ii) at `d ≤ MIN_GRAVITY_DISTANCE` or `d ≥ MAX_GRAVITY_DISTANCE` the
contribution is zero; (iii) strictly inside the band it is the vector of
magnitude `GRAVITY_STRENGTH / d²` (squared magnitude
`(GRAVITY_STRENGTH / d²)²`) pointing from the object toward the hole (a
positive multiple of the centre-difference vector). -/
theorem gravity_cutoff_band (obj hole : GameObject) (d : ℚ)
    (hd0 : 0 ≤ d)
    (hd : d * d = (hole.x - obj.x) * (hole.x - obj.x) +
      (hole.y - obj.y) * (hole.y - obj.y)) :
    (obj.type ≠ HOLE → hole.live = true → hole.type = HOLE →
      applyGravity obj [(hole, d)] =
        { obj with fx := obj.fx + (gravityFromHole obj hole d).1,
                   fy := obj.fy + (gravityFromHole obj hole d).2 }) ∧
    (d ≤ MIN_GRAVITY_DISTANCE ∨ MAX_GRAVITY_DISTANCE ≤ d →
      gravityFromHole obj hole d = (0, 0)) ∧
    (MIN_GRAVITY_DISTANCE < d → d < MAX_GRAVITY_DISTANCE →
      gravityFromHole obj hole d =
        (GRAVITY_STRENGTH / (d * d) * ((hole.x - obj.x) / d),
         GRAVITY_STRENGTH / (d * d) * ((hole.y - obj.y) / d)) ∧
      ((gravityFromHole obj hole d).1 * (gravityFromHole obj hole d).1 +
        (gravityFromHole obj hole d).2 * (gravityFromHole obj hole d).2 =
        (GRAVITY_STRENGTH / (d * d)) * (GRAVITY_STRENGTH / (d * d))) ∧
      ∃ k : ℚ, 0 < k ∧
        (gravityFromHole obj hole d).1 = k * (hole.x - obj.x) ∧
        (gravityFromHole obj hole d).2 = k * (hole.y - obj.y)) := by
  refine ⟨?_, ?_, ?_⟩
  · intro hobj hlive htype
    simp [applyGravity, hobj, hlive, htype]
  · intro h
    have hcond : ¬ (d < MAX_GRAVITY_DISTANCE ∧ MIN_GRAVITY_DISTANCE < d) := by
      rintro ⟨hlt, hgt⟩
      rcases h with h | h <;> linarith
    simp [gravityFromHole, hcond]
  · intro h1 h2
    have hdpos : 0 < d := by
      have : (0 : ℚ) < MIN_GRAVITY_DISTANCE := by
        norm_num [MIN_GRAVITY_DISTANCE]
      linarith
    have hdne : d ≠ 0 := ne_of_gt hdpos
    have hcond : d < MAX_GRAVITY_DISTANCE ∧ MIN_GRAVITY_DISTANCE < d :=
      ⟨h2, h1⟩
    have heq : gravityFromHole obj hole d =
        (GRAVITY_STRENGTH / (d * d) * ((hole.x - obj.x) / d),
         GRAVITY_STRENGTH / (d * d) * ((hole.y - obj.y) / d)) := by
      simp [gravityFromHole, hcond]
    refine ⟨heq, ?_, ?_⟩
    · have key : ∀ g a b : ℚ,
          g * (a / d) * (g * (a / d)) + g * (b / d) * (g * (b / d)) =
          g * g * ((a * a + b * b) / (d * d)) := by
        intro g a b
        field_simp
        ring
      rw [heq]
      dsimp only
      rw [key, ← hd, div_self (mul_ne_zero hdne hdne), mul_one]
    · refine ⟨GRAVITY_STRENGTH / (d * d * d), ?_, ?_, ?_⟩
      · have hG : (0 : ℚ) < GRAVITY_STRENGTH := by
          norm_num [GRAVITY_STRENGTH]
        positivity
      · rw [heq]
        dsimp only
        field_simp
      · rw [heq]
        dsimp only
        field_simp

/-- C4 (witness): an object at the origin and a hole at (30, 40): the
centre distance 50 lies strictly inside the band (30, 150) and the
contribution evaluates to `(1000/2500)·(30/50, 40/50) = (6/25, 8/25)`. -/
theorem gravity_cutoff_band_witness :
    (0 : ℚ) ≤ 50 ∧
    (50 : ℚ) * 50 = (holeAt3040.x - objAtOrigin.x) *
        (holeAt3040.x - objAtOrigin.x) +
      (holeAt3040.y - objAtOrigin.y) * (holeAt3040.y - objAtOrigin.y) ∧
    MIN_GRAVITY_DISTANCE < (50 : ℚ) ∧ (50 : ℚ) < MAX_GRAVITY_DISTANCE ∧
    gravityFromHole objAtOrigin holeAt3040 50 =
      (GRAVITY_STRENGTH / (50 * 50) *
        ((holeAt3040.x - objAtOrigin.x) / 50),
       GRAVITY_STRENGTH / (50 * 50) *
        ((holeAt3040.y - objAtOrigin.y) / 50)) ∧
    gravityFromHole objAtOrigin holeAt3040 50 = (6 / 25, 8 / 25) := by
  have h := ((gravity_cutoff_band objAtOrigin holeAt3040 50 (by norm_num)
    (by norm_num [holeAt3040, objAtOrigin])).2.2
    (by norm_num [MIN_GRAVITY_DISTANCE])
    (by norm_num [MAX_GRAVITY_DISTANCE])).1
  refine ⟨by norm_num, by norm_num [holeAt3040, objAtOrigin],
    by norm_num [MIN_GRAVITY_DISTANCE], by norm_num [MAX_GRAVITY_DISTANCE],
    h, ?_⟩
  rw [h]
  norm_num [GRAVITY_STRENGTH, holeAt3040, objAtOrigin]

/-- C5 (counterexample): one life left, the only rocket dead, a ball still
alive.  `checkGameState` emits `gameOver{score, level}` but leaves the
phase at `running` — it never transitions to `stopped`, contradicting the
claimed Stopped transition. -/
theorem checkGameState_gameOver_not_stopped :
    rocketDead.live = false ∧ stC5.lives = 1 ∧
    Eff.gameOver 42 3 ∈
      (checkGameState [ballAt100] [rocketDead] stC5 GState.running).events ∧
    (checkGameState [ballAt100] [rocketDead] stC5 GState.running).gs =
      GState.running ∧
    (checkGameState [ballAt100] [rocketDead] stC5 GState.running).gs ≠
      GState.stopped := by
  decide

/-- C5 (amended): when no live rocket remains, lives is decremented; if
lives thereby drops to ≤ 0, `gameOver` with the final score (and level) is
emitted while the phase is left unchanged (no transition to Stopped — the
engine never stops itself); otherwise `restartLevel()` re-runs the same
level (score and level unchanged, phase set to running). -/
theorem checkGameState_lifeLost (objects rockets : List GameObject)
    (st : ScoreState) (gs : GState)
    (hnone : rockets.filter (fun r => r.live) = []) :
    (checkGameState objects rockets st gs).st.lives = st.lives - 1 ∧
    (checkGameState objects rockets st gs).st.score = st.score ∧
    (checkGameState objects rockets st gs).st.level = st.level ∧
    (st.lives - 1 ≤ 0 →
      Eff.gameOver st.score st.level ∈
        (checkGameState objects rockets st gs).events ∧
      (checkGameState objects rockets st gs).gs = gs ∧
      (checkGameState objects rockets st gs).restarted = false) ∧
    (0 < st.lives - 1 →
      (checkGameState objects rockets st gs).gs = GState.running ∧
      (checkGameState objects rockets st gs).restarted = true) := by
  unfold checkGameState
  rw [hnone]
  by_cases hl : st.lives - 1 ≤ 0
  · simp [hl]
    omega
  · simp [hl]

/-- C5 (witness): with 3 lives and the only rocket dead, the rules check
drops to 2 lives and restarts the same level with the phase running. -/
theorem checkGameState_lifeLost_witness :
    ([rocketDead].filter (fun r => r.live) = []) ∧
    (checkGameState [ballAt100] [rocketDead] stStart
      GState.running).st.lives = stStart.lives - 1 ∧
    (0 < stStart.lives - 1) ∧
    (checkGameState [ballAt100] [rocketDead] stStart GState.running).gs =
      GState.running ∧
    (checkGameState [ballAt100] [rocketDead] stStart
      GState.running).restarted = true := by
  have h := checkGameState_lifeLost [ballAt100] [rocketDead] stStart
    GState.running (by decide)
  have h2 := h.2.2.2.2 (by decide)
  exact ⟨by decide, h.1, by decide, h2.1, h2.2⟩

/-- C6 (counterexample): no live ball remains (a lone rocket survives),
score 100 at level 2.  `checkGameState` only emits
`levelComplete{level := 2, score := 100}`: the score receives no
completion bonus and the level is not advanced — both stay exactly as
they were, contradicting the claimed bonus and advance. -/
theorem checkGameState_levelComplete_no_bonus :
    ([rocketIdle].filter
      (fun o => o.live && (o.type == BALL_SMALL || o.type == BALL_LARGE))
      = []) ∧
    (checkGameState [rocketIdle] [rocketIdle] stC6 GState.running).events =
      [Eff.levelComplete 2 100] ∧
    (checkGameState [rocketIdle] [rocketIdle] stC6
      GState.running).st.score = 100 ∧
    (checkGameState [rocketIdle] [rocketIdle] stC6
      GState.running).st.level = 2 ∧
    (checkGameState [rocketIdle] [rocketIdle] stC6 GState.running).st =
      stC6 := by
  decide

/-- C6 (amended): when zero alive Ball-kind objects remain, the rules
check emits `levelComplete` carrying the current level and score; the
engine itself adds no completion bonus and does not advance the level —
score and level are unchanged (the UI listener performs the advance). -/
theorem checkGameState_levelComplete_emits (objects rockets : List GameObject)
    (st : ScoreState) (gs : GState)
    (hnoballs : objects.filter
      (fun o => o.live && (o.type == BALL_SMALL || o.type == BALL_LARGE))
      = []) :
    Eff.levelComplete st.level st.score ∈
      (checkGameState objects rockets st gs).events ∧
    (checkGameState objects rockets st gs).st.score = st.score ∧
    (checkGameState objects rockets st gs).st.level = st.level := by
  simp only [checkGameState, hnoballs]
  split_ifs <;> simp_all

/-- C6 (witness): level 2, score 100, no live balls but a live rocket —
`levelComplete 2 100` is emitted and score and level stay 100 and 2. -/
theorem checkGameState_levelComplete_emits_witness :
    ([rocketIdle].filter
      (fun o => o.live && (o.type == BALL_SMALL || o.type == BALL_LARGE))
      = []) ∧
    Eff.levelComplete stC6.level stC6.score ∈
      (checkGameState [rocketIdle] [rocketIdle] stC6
        GState.running).events ∧
    (checkGameState [rocketIdle] [rocketIdle] stC6
      GState.running).st.score = stC6.score ∧
    (checkGameState [rocketIdle] [rocketIdle] stC6
      GState.running).st.level = stC6.level := by
  exact ⟨by decide, checkGameState_levelComplete_emits [rocketIdle]
    [rocketIdle] stC6 GState.running (by decide)⟩

/-- C7 (counterexample): a live small ball and a live hole with exactly
coincident centres (distance 0).  The pair is NOT skipped: `0 < r₁ + r₂`
passes the overlap test, `handleCollision` runs to completion, the ball is
killed and scored and the `ballInHole` and `collision` sounds fire —
contradicting "the pairwise resolution is skipped". -/
theorem collidePair_zero_distance_not_skipped :
    ballAt100.live = true ∧ holeAt100.live = true ∧
    holeAt100.x = ballAt100.x ∧ holeAt100.y = ballAt100.y ∧
    (collidePair ballAt100 holeAt100 0 stStart).1.live = false ∧
    (collidePair ballAt100 holeAt100 0 stStart).2.2.1.score =
      stStart.score + 10 ∧
    Eff.sound SoundName.ballInHole ∈
      (collidePair ballAt100 holeAt100 0 stStart).2.2.2 ∧
    Eff.sound SoundName.collision ∈
      (collidePair ballAt100 holeAt100 0 stStart).2.2.2 := by
  refine ⟨rfl, rfl, rfl, rfl, ?_, ?_, ?_, ?_⟩ <;>
    norm_num [collidePair, handleCollision, handleSpecialCollisions,
      checkExtraLife, ballAt100, holeAt100, stStart, BALL_SMALL,
      BALL_LARGE, HOLE, ROCKET]

/-- C7 (amended): a zero-distance pair of live objects is treated as a
regular collision, not skipped: the overlap test passes and
`handleCollision` runs (the `collision` sound fires).  In this exact
model, where a division by zero yields zero, the degenerate normal makes
the separation and impulse no-ops, so positions and velocities of both
objects are unchanged and stay finite rationals. -/
theorem collidePair_coincident_behavior (obj1 obj2 : GameObject)
    (st : ScoreState)
    (h1 : obj1.live = true) (h2 : obj2.live = true)
    (hx : obj2.x = obj1.x) (hy : obj2.y = obj1.y)
    (hr : 0 < obj1.radius + obj2.radius) :
    Eff.sound SoundName.collision ∈
      (collidePair obj1 obj2 0 st).2.2.2 ∧
    (collidePair obj1 obj2 0 st).1.x = obj1.x ∧
    (collidePair obj1 obj2 0 st).1.y = obj1.y ∧
    (collidePair obj1 obj2 0 st).1.vx = obj1.vx ∧
    (collidePair obj1 obj2 0 st).1.vy = obj1.vy ∧
    (collidePair obj1 obj2 0 st).2.1.x = obj2.x ∧
    (collidePair obj1 obj2 0 st).2.1.y = obj2.y ∧
    (collidePair obj1 obj2 0 st).2.1.vx = obj2.vx ∧
    (collidePair obj1 obj2 0 st).2.1.vy = obj2.vy := by
  simp [collidePair, handleCollision, h1, h2, hx, hy, hr, hsc_fst_x,
    hsc_fst_y, hsc_fst_vx, hsc_fst_vy, hsc_snd_x, hsc_snd_y, hsc_snd_vx,
    hsc_snd_vy]

/-- C7 (witness): the coincident ball–hole pair above satisfies the
hypotheses, and the `collision` sound indeed fires while the ball's
position and velocity are unchanged. -/
theorem collidePair_coincident_behavior_witness :
    ballAt100.live = true ∧ holeAt100.live = true ∧
    holeAt100.x = ballAt100.x ∧ holeAt100.y = ballAt100.y ∧
    (0 : ℚ) < ballAt100.radius + holeAt100.radius ∧
    Eff.sound SoundName.collision ∈
      (collidePair ballAt100 holeAt100 0 stStart).2.2.2 ∧
    (collidePair ballAt100 holeAt100 0 stStart).1.x = ballAt100.x ∧
    (collidePair ballAt100 holeAt100 0 stStart).1.vx = ballAt100.vx := by
  have h := collidePair_coincident_behavior ballAt100 holeAt100 stStart rfl
    rfl rfl rfl (by norm_num [ballAt100, holeAt100])
  exact ⟨rfl, rfl, rfl, rfl, by norm_num [ballAt100, holeAt100], h.1,
    h.2.1, h.2.2.2.1⟩

/-- C8: in the deadly-wall engine, `keepInBounds` kills every live
non-hole object whose centre is within one radius of a screen edge
(strictly closer than `radius`), adds 5 to the score for a small ball and
10 for a large ball, and plays the death sound (`rocketDeath` for rockets,
`objectDeath` otherwise); live holes are returned completely unchanged by
the bounds check. -/
theorem keepInBounds_deadly_wall_death (w h : ℚ) (obj : GameObject)
    (st : ScoreState) (hlive : obj.live = true) :
    (obj.type ≠ HOLE →
      (obj.x < obj.radius ∨ w - obj.radius < obj.x ∨
        obj.y < obj.radius ∨ h - obj.radius < obj.y) →
      ((keepInBounds w h obj st).1.live = false ∧
       (obj.type = BALL_SMALL →
         (keepInBounds w h obj st).2.1.score = st.score + 5) ∧
       (obj.type = BALL_LARGE →
         (keepInBounds w h obj st).2.1.score = st.score + 10) ∧
       Eff.sound (if obj.type = ROCKET then SoundName.rocketDeath
          else SoundName.objectDeath) ∈ (keepInBounds w h obj st).2.2)) ∧
    (obj.type = HOLE → keepInBounds w h obj st = (obj, st, [])) := by
  constructor
  · intro hnh hhit
    unfold keepInBounds
    rw [if_pos hhit, if_neg hnh]
    refine ⟨rfl, ?_, ?_, ?_⟩
    · intro hs
      simp [hs, checkExtraLife_score]
    · intro hl
      have hns : ¬ obj.type = BALL_SMALL := by
        rw [hl]; decide
      simp [hl, hns, checkExtraLife_score, BALL_SMALL, BALL_LARGE]
    · simp [List.mem_append]
  · intro hh
    simp [keepInBounds, hh]

/-- C8 (witness): a live small ball with centre x = 2 and radius 8 (within
one radius of the left edge) dies, scores 5, and the `objectDeath` sound
fires; radii and types evaluated concretely. -/
theorem keepInBounds_deadly_wall_death_witness :
    ballAtEdge.live = true ∧ ballAtEdge.type ≠ HOLE ∧
    ballAtEdge.x < ballAtEdge.radius ∧
    (keepInBounds 800 600 ballAtEdge stStart).1.live = false ∧
    (keepInBounds 800 600 ballAtEdge stStart).2.1.score =
      stStart.score + 5 ∧
    Eff.sound SoundName.objectDeath ∈
      (keepInBounds 800 600 ballAtEdge stStart).2.2 := by
  have h := (keepInBounds_deadly_wall_death 800 600 ballAtEdge stStart
    rfl).1 (by decide) (Or.inl (by norm_num [ballAtEdge]))
  refine ⟨rfl, by decide, by norm_num [ballAtEdge], h.1, h.2.1 rfl, ?_⟩
  have h2 := h.2.2.2
  simpa [ballAtEdge, ROCKET, BALL_SMALL] using h2
